import Mathlib

/-!
# Abo-Raya-Motors: client-side scripts

A shallow embedding of `static/js/compare.js` (the compare-list manager), of
`static/js/dropdowns.js` (the cascading selection resolver), of `revealPhone` in
`static/js/animations.js` and of the map data of `static/js/hero_3d.js`, followed by the
properties proved about them.

Conventions of the embedding:

* `localStorage['compareIds']` is kept decoded: `none` when the key is absent (or holds
  the empty string, which `|| '[]'` treats alike), `some ids` when it holds the JSON
  array `ids`.  Listing ids are strings, as `dataset.id` delivers them.
* A DOM element looked up with `getElementById` is an `Option`: `none` when the page
  lacks it.  Dereferencing a missing element is an uncaught `TypeError`, which ends the
  running handler; the mutations made before it stay.
* `alert`, `console.error`, `fetch` and assignments to `window.location.href` are
  recorded in logs carried by the state.
-/

namespace Compare

/-- The constant `MAX_CARS` of `compare.js`. -/
def MAX_CARS : Nat := 3

/-- A `.compare-checkbox` element: its `data-id` and its `checked` flag. -/
structure Checkbox where
  dataId : String
  checked : Bool
  deriving DecidableEq, Repr

/-- The part of the browser state `compare.js` reads and writes. -/
structure Page where
  /-- Decoded value of `localStorage['compareIds']`. -/
  compareIds : Option (List String)
  /-- Every value passed to `localStorage.setItem('compareIds', _)`, oldest first. -/
  setItemLog : List (List String)
  /-- The `.compare-checkbox` elements in document order. -/
  checkboxes : List Checkbox
  /-- The `classList` of `#compare-bar`. -/
  compareBar : Option (List String)
  /-- The `textContent` of `#compare-count`. -/
  compareCount : Option String
  /-- Messages shown with `alert`, oldest first. -/
  alerts : List String
  /-- The last value assigned to `window.location.href`, if any. -/
  href : Option String
  /-- Uncaught exceptions, oldest first. -/
  uncaught : List String
  deriving DecidableEq, Repr

/-- The expression `JSON.parse(localStorage.getItem('compareIds') || '[]')`. -/
def storedIds (s : Page) : List String :=
  s.compareIds.getD []

/-- The call `localStorage.setItem('compareIds', JSON.stringify(ids))`. -/
def setItem (ids : List String) (s : Page) : Page :=
  { s with compareIds := some ids, setItemLog := s.setItemLog ++ [ids] }

/-- The method `classList.remove(token)`. -/
def classListRemove (cl : List String) (token : String) : List String :=
  cl.filter (fun c => c != token)

/-- The method `classList.add(token)`. -/
def classListAdd (cl : List String) (token : String) : List String :=
  if cl.contains token then cl else cl ++ [token]

/-- An uncaught `TypeError` raised by dereferencing a missing element. -/
def throwTypeError (what : String) (s : Page) : Page :=
  { s with uncaught := s.uncaught ++ ["TypeError: " ++ what ++ " is null"] }

/-- The function `updateCompareUI` of `compare.js`. -/
def updateCompareUI (s : Page) : Page :=
  let ids := storedIds s
  let s1 : Page :=
    { s with checkboxes :=
        s.checkboxes.map (fun cb => { cb with checked := ids.contains cb.dataId }) }
  if ids.length > 0 then
    match s1.compareBar with
    | none => throwTypeError "compareBar" s1
    | some cl =>
      let s2 : Page := { s1 with compareBar := some (classListRemove cl "d-none") }
      match s2.compareCount with
      | none => throwTypeError "compareCount" s2
      | some _ => { s2 with compareCount := some (toString ids.length) }
  else
    match s1.compareBar with
    | none => throwTypeError "compareBar" s1
    | some cl => { s1 with compareBar := some (classListAdd cl "d-none") }

/-- The text of the capacity alert. -/
def capacityMessage : String :=
  "You can only compare up to " ++ toString MAX_CARS ++ " cars."

/-- The function `toggleCompare` of `compare.js`. -/
def toggleCompare (id : String) (s : Page) : Page :=
  let ids := storedIds s
  if ids.contains id then
    updateCompareUI (setItem (ids.filter (fun itemId => itemId != id)) s)
  else if ids.length ≥ MAX_CARS then
    { s with alerts := s.alerts ++ [capacityMessage] }
  else
    updateCompareUI (setItem (ids ++ [id]) s)

/-- The text of the minimum-selection alert. -/
def minimumMessage : String :=
  "Please select at least 2 cars to compare."

/-- The click handler registered on `#compare-btn`. -/
def compareBtnClick (s : Page) : Page :=
  let ids := storedIds s
  if ids.length < 2 then
    { s with alerts := s.alerts ++ [minimumMessage] }
  else
    { s with href := some ("/compare/?ids=" ++ ",".intercalate ids) }

/-- A page of a first visit: nothing persisted, the bar hidden, no checkbox. -/
def freshPage : Page :=
  { compareIds := none, setItemLog := [], checkboxes := [],
    compareBar := some ["compare-bar", "d-none"], compareCount := some "0",
    alerts := [], href := none, uncaught := [] }

/-- A page whose storage holds `ids`, otherwise like `freshPage`. -/
def pageWith (ids : List String) : Page :=
  { freshPage with compareIds := some ids }

/-- The handler of `DOMContentLoaded`, after the listeners are registered: the call
`updateCompareUI()` under the comment "Initialize". -/
def onDOMContentLoaded (s : Page) : Page :=
  updateCompareUI s

/-- The page after toggling the ids of `xs` one after the other, first to last. -/
def toggleAll (xs : List String) (s : Page) : Page :=
  xs.foldl (fun acc x => toggleCompare x acc) s

/-- Whether `#compare-bar` is on the page and carries the class `d-none`. -/
def barHidden (s : Page) : Bool :=
  match s.compareBar with
  | some cl => cl.contains "d-none"
  | none => false

/-- The `change` listener on `document.body`, run for an event whose target is the
compare checkbox at position `target` of the page; `none` stands for a target without
the class `compare-checkbox`, for which the listener does nothing. -/
def bodyChange (target : Option Nat) (s : Page) : Page :=
  match target.bind (fun i => s.checkboxes[i]?) with
  | some cb => toggleCompare cb.dataId s
  | none => s

/-- The user flips the compare checkbox at position `target`: the browser inverts its
`checked` flag and then dispatches `change` on it, which bubbles to `document.body`. -/
def userFlip (target : Nat) (s : Page) : Page :=
  bodyChange (some target)
    { s with checkboxes :=
        s.checkboxes.modify (fun cb => { cb with checked := !cb.checked }) target }

/-- Whether every compare checkbox is checked exactly when its `data-id` is persisted. -/
def checkboxesMirror (s : Page) : Bool :=
  s.checkboxes.all (fun cb => cb.checked == (storedIds s).contains cb.dataId)

/-- A listing page with one compare checkbox per id of `shown`, each checked exactly when
its id is among the persisted `ids`. -/
def listingPage (ids shown : List String) : Page :=
  { pageWith ids with
    checkboxes := shown.map (fun x => { dataId := x, checked := ids.contains x }),
    compareBar := some ["compare-bar"],
    compareCount := some (toString ids.length) }

end Compare

namespace Dropdowns

/-- An `<option>` element: its `value`, its text and its `data-*` attributes. -/
structure SelectOption where
  value : String
  text : String
  dataset : List (String × String)
  deriving DecidableEq, Repr

/-- The single option an assignment `innerHTML = '<option value="">label</option>'`
leaves in a select widget. -/
def placeholder (label : String) : SelectOption :=
  { value := "", text := label, dataset := [] }

/-- A JSON scalar serving as an id in a lookup response. -/
inductive JsonId where
  | num (n : Int)
  | str (t : String)
  deriving DecidableEq, Repr

/-- The string a DOM attribute setter makes of an id (`option.value = model.id`). -/
def JsonId.toDOMString : JsonId → String
  | .num n => toString n
  | .str t => t

/-- An element `{id, name}` of the models lookup response. -/
structure ModelItem where
  id : JsonId
  name : String
  deriving DecidableEq, Repr

/-- How the promise chain `fetch(..).then(response => response.json())` settles for the
callbacks that follow: `fulfilled` with the decoded array of `{id, name}`, or `rejected`,
when the `.catch` callback runs (network failure, a body that is not JSON, or a decoded
value on which the success callback throws, whose writes the `.catch` callback then
overwrites). -/
inductive Outcome where
  | fulfilled (data : List ModelItem)
  | rejected (error : String)
  deriving DecidableEq, Repr

/-- The part of the browser state the handlers of `dropdowns.js` read and write, on a page
that has the three widgets `#id_make`, `#id_model` and `#id_trim` (on any other page the
script registers no handler). -/
structure Form where
  /-- The attribute `document.documentElement.lang`. -/
  lang : String
  /-- The options of `#id_model`, in order. -/
  modelOptions : List SelectOption
  /-- The options of `#id_trim`, in order. -/
  trimOptions : List SelectOption
  /-- Every URL passed to `fetch`, oldest first. -/
  fetchLog : List String
  /-- The URLs of the lookups issued and not yet settled. -/
  pending : List String
  /-- The lines written with `console.error`, oldest first. -/
  console : List String
  /-- The URLs of the trims lookups issued and not yet settled. -/
  pendingTrims : List String
  /-- The number of `change` events dispatched on `#id_trim` by the script. -/
  trimChangeEvents : Nat
  /-- The `innerHTML` of `#trim-details`; `none` when the page has no such element. -/
  trimDetails : Option String
  /-- Exceptions raised inside a listener and left uncaught, oldest first. -/
  uncaught : List String
  deriving DecidableEq, Repr

/-- The constant `currentLang`: `document.documentElement.lang || 'ar'`. -/
def currentLang (s : Form) : String :=
  if s.lang = "" then "ar" else s.lang

/-- The URL of the models lookup. -/
def modelsUrl (lang makeId : String) : String :=
  "/" ++ lang ++ "/ajax/load-models/?make_id=" ++ makeId

/-- The call `fetch(url)`: the request is issued and stays pending until it settles. -/
def fetch (url : String) (s : Form) : Form :=
  { s with fetchLog := s.fetchLog ++ [url], pending := s.pending ++ [url] }

/-- The `change` handler of `#id_make`, run with `this.value = makeId`, up to its return. -/
def makeChange (makeId : String) (s : Form) : Form :=
  let s1 : Form := { s with modelOptions := [placeholder "Select Model"] }
  let s2 : Form := { s1 with trimOptions := [placeholder "Select Trim"] }
  if makeId = "" then s2
  else
    let s3 : Form := { s2 with modelOptions := [placeholder "Loading..."] }
    fetch (modelsUrl (currentLang s3) makeId) s3

/-- The body of `data.forEach(model => ...)` in the models lookup: one option is created
and appended to `#id_model`. -/
def appendModel (s : Form) (model : ModelItem) : Form :=
  let option : SelectOption :=
    { value := model.id.toDOMString, text := model.name, dataset := [] }
  { s with modelOptions := s.modelOptions ++ [option] }

/-- The success callback `.then(data => ...)` of the models lookup. -/
def modelsLoaded (data : List ModelItem) (s : Form) : Form :=
  let s1 : Form := { s with modelOptions := [placeholder "Select Model"] }
  data.foldl appendModel s1

/-- The failure callback `.catch(error => ...)` of the models lookup. -/
def modelsFailed (error : String) (s : Form) : Form :=
  { s with console := s.console ++ ["Error loading models: " ++ error],
           modelOptions := [placeholder "Error loading models"] }

/-- What the page can observe: a make change, or a pending models lookup settling. -/
inductive Event where
  | makeChanged (makeId : String)
  | modelsSettled (url : String) (outcome : Outcome)
  deriving DecidableEq, Repr

/-- One turn of the event loop.  A lookup settles only while it is pending. -/
def step (s : Form) : Event → Form
  | .makeChanged makeId => makeChange makeId s
  | .modelsSettled url outcome =>
    if s.pending.contains url then
      let s1 : Form := { s with pending := s.pending.erase url }
      match outcome with
      | .fulfilled data => modelsLoaded data s1
      | .rejected error => modelsFailed error s1
    else s

/-- The state after the events of `es` are handled one after the other. -/
def run (es : List Event) (s : Form) : Form :=
  es.foldl step s

/-- A form as the server renders it: no make chosen yet. -/
def freshForm : Form :=
  { lang := "en", modelOptions := [placeholder "Select Model"],
    trimOptions := [placeholder "Select Trim"], fetchLog := [], pending := [],
    console := [], pendingTrims := [], trimChangeEvents := 0, trimDetails := some "",
    uncaught := [] }

/-- An element `{id, display, year, horsepower, fuel_consumption}` of the trims lookup
response.  The three metadata fields are kept as the strings the `dataset` setter stores
for them (`String(trim.year)` and so on). -/
structure TrimItem where
  id : JsonId
  display : String
  year : String
  horsepower : String
  fuel_consumption : String
  deriving DecidableEq, Repr

/-- How the promise chain of the trims lookup settles for the callbacks that follow; see
`Outcome`. -/
inductive TrimsOutcome where
  | fulfilled (data : List TrimItem)
  | rejected (error : String)
  deriving DecidableEq, Repr

/-- The URL of the trims lookup. -/
def trimsUrl (lang modelId : String) : String :=
  "/" ++ lang ++ "/ajax/load-trims/?model_id=" ++ modelId

/-- The call `fetch(url)` of the model-change handler. -/
def fetchTrims (url : String) (s : Form) : Form :=
  { s with fetchLog := s.fetchLog ++ [url], pendingTrims := s.pendingTrims ++ [url] }

/-- The `change` handler of `#id_model`, run with `this.value = modelId`, up to its
return. -/
def modelChange (modelId : String) (s : Form) : Form :=
  let s1 : Form := { s with trimOptions := [placeholder "Select Trim"] }
  if modelId = "" then s1
  else
    let s2 : Form := { s1 with trimOptions := [placeholder "Loading..."] }
    fetchTrims (trimsUrl (currentLang s2) modelId) s2

/-- An assignment `option.dataset[key] = v`. -/
def datasetSet (dataset : List (String × String)) (key v : String) :
    List (String × String) :=
  dataset.filter (fun kv => kv.1 != key) ++ [(key, v)]

/-- A read `option.dataset[key]` spliced into a template literal: an absent key gives
`undefined`. -/
def datasetGet (o : SelectOption) (key : String) : String :=
  (o.dataset.lookup key).getD "undefined"

/-- The body of `data.forEach(trim => ...)` in the trims lookup: one option is created,
given its value, text and metadata, and appended to `#id_trim`. -/
def appendTrim (s : Form) (trim : TrimItem) : Form :=
  let option : SelectOption := { value := "", text := "", dataset := [] }
  let option : SelectOption := { option with value := trim.id.toDOMString }
  let option : SelectOption := { option with text := trim.display }
  let option : SelectOption :=
    { option with dataset := datasetSet option.dataset "year" trim.year }
  let option : SelectOption :=
    { option with dataset := datasetSet option.dataset "horsepower" trim.horsepower }
  let option : SelectOption :=
    { option with
      dataset := datasetSet option.dataset "fuelConsumption" trim.fuel_consumption }
  { s with trimOptions := s.trimOptions ++ [option] }

/-- The expression `this.options[this.selectedIndex]`; `none` stands for `undefined`. -/
def optionAt (options : List SelectOption) (selectedIndex : Int) : Option SelectOption :=
  if selectedIndex < 0 then none else options[selectedIndex.toNat]?

/-- The template literal the trim-change handler assigns to `detailsDiv.innerHTML`. -/
def specifications (year hp fuel : String) : String :=
  "\n                    <div class=\"glass-card-light p-3 mt-3\">"
    ++ "\n                        <h6>Specifications:</h6>"
    ++ "\n                        <ul class=\"mb-0\">"
    ++ "\n                            <li>Year: " ++ year ++ "</li>"
    ++ "\n                            <li>Horsepower: " ++ hp ++ " HP</li>"
    ++ "\n                            <li>Fuel Consumption: " ++ fuel ++ " L/100km</li>"
    ++ "\n                        </ul>"
    ++ "\n                    </div>"
    ++ "\n                "

/-- The `change` handler of `#id_trim`, run with `this.selectedIndex = selectedIndex`. -/
def trimChange (selectedIndex : Int) (s : Form) : Form :=
  match optionAt s.trimOptions selectedIndex with
  | none =>
    { s with uncaught := s.uncaught ++ ["TypeError: selectedOption is undefined"] }
  | some selectedOption =>
    if selectedOption.value ≠ "" then
      match s.trimDetails with
      | some _ =>
        let year := datasetGet selectedOption "year"
        let hp := datasetGet selectedOption "horsepower"
        let fuel := datasetGet selectedOption "fuelConsumption"
        { s with trimDetails := some (specifications year hp fuel) }
      | none => s
    else s

/-- The `selectedIndex` of a drop-down `<select>` whose options were just rebuilt by an
`innerHTML` assignment and `appendChild` calls, none of them marked `selected`: the
browser selects the first option, and reports -1 when there is none. -/
def rebuiltSelectedIndex (options : List SelectOption) : Int :=
  if options.isEmpty then -1 else 0

/-- The call `trimSelect.dispatchEvent(new Event('change'))`: the trim-change handler runs
before the call returns; what it throws is reported, not passed to the caller. -/
def dispatchTrimChange (s : Form) : Form :=
  trimChange (rebuiltSelectedIndex s.trimOptions)
    { s with trimChangeEvents := s.trimChangeEvents + 1 }

/-- The success callback `.then(data => ...)` of the trims lookup. -/
def trimsLoaded (data : List TrimItem) (s : Form) : Form :=
  let s1 : Form := { s with trimOptions := [placeholder "Select Trim"] }
  let s2 : Form := data.foldl appendTrim s1
  dispatchTrimChange s2

/-- The failure callback `.catch(error => ...)` of the trims lookup. -/
def trimsFailed (error : String) (s : Form) : Form :=
  { s with console := s.console ++ ["Error loading trims: " ++ error],
           trimOptions := [placeholder "Error loading trims"] }

/-- A pending trims lookup settles: its callbacks run.  Nothing happens for a URL that is
not pending. -/
def trimsSettled (url : String) (outcome : TrimsOutcome) (s : Form) : Form :=
  if s.pendingTrims.contains url then
    let s1 : Form := { s with pendingTrims := s.pendingTrims.erase url }
    match outcome with
    | .fulfilled data => trimsLoaded data s1
    | .rejected error => trimsFailed error s1
  else s

end Dropdowns

namespace Animations

/-- The button handed to `revealPhone`: its content, its `disabled` flag and its class
list. -/
structure Button where
  innerHTML : String
  disabled : Bool
  classList : List String
  deriving DecidableEq, Repr

/-- A lookup issued by `revealPhone` and not yet settled, with the `originalContent` its
callbacks captured. -/
structure Lookup where
  url : String
  originalContent : String
  deriving DecidableEq, Repr

/-- A timer set by `setTimeout(() => { button.innerHTML = originalContent }, 3000)`: the
time in milliseconds from which it may fire, and the captured `originalContent`. -/
structure Timer where
  due : Nat
  originalContent : String
  deriving DecidableEq, Repr

/-- How the promise chain `fetch(..).then(response => response.json())` of `revealPhone`
settles for the callbacks that follow: with the `phone_number` of the decoded object, or
rejected, when the `.catch` callback runs. -/
inductive PhoneOutcome where
  | fulfilled (phone_number : String)
  | rejected (error : String)
  deriving DecidableEq, Repr

/-- The part of the browser state `revealPhone` reads and writes, for one button. -/
structure Control where
  /-- The attribute `document.documentElement.lang`. -/
  lang : String
  /-- The clock, in milliseconds. -/
  now : Nat
  button : Button
  /-- Every URL passed to `fetch`, oldest first. -/
  fetchLog : List String
  /-- The lookups issued and not yet settled. -/
  pending : List Lookup
  /-- The timers set and not yet fired. -/
  timers : List Timer
  /-- The phone numbers held by the `onComplete` callbacks of the running `gsap.to`
  animations. -/
  tweens : List String
  /-- The lines written with `console.error`, oldest first. -/
  console : List String
  deriving DecidableEq, Repr

/-- The delay passed to `setTimeout` in the failure callback, in milliseconds. -/
def RESTORE_DELAY : Nat := 3000

/-- The content `revealPhone` shows while the lookup is pending. -/
def loadingContent : String :=
  "<span class=\"loading\"></span> Loading..."

/-- The URL of the phone lookup; `currentLang` is `document.documentElement.lang || 'ar'`. -/
def phoneUrl (lang listingId : String) : String :=
  "/" ++ (if lang = "" then "ar" else lang) ++ "/ajax/reveal-phone/" ++ listingId ++ "/"

/-- The function `revealPhone` of `animations.js`, up to its return. -/
def revealPhone (listingId : String) (s : Control) : Control :=
  let s1 : Control := { s with button := { s.button with disabled := true } }
  let originalContent := s1.button.innerHTML
  let s2 : Control := { s1 with button := { s1.button with innerHTML := loadingContent } }
  { s2 with fetchLog := s2.fetchLog ++ [phoneUrl s2.lang listingId],
            pending := s2.pending ++ [{ url := phoneUrl s2.lang listingId,
                                        originalContent := originalContent }] }

/-- The success callback `.then(data => ...)`: the animation `gsap.to(button, ...)` is
started; its `onComplete` callback holds `data.phone_number`. -/
def phoneLoaded (phone_number : String) (s : Control) : Control :=
  { s with tweens := s.tweens ++ [phone_number] }

/-- The `onComplete` callback of the animation. -/
def tweenComplete (phone_number : String) (s : Control) : Control :=
  let b1 : Button :=
    { s.button with innerHTML := "<i class=\"bi bi-telephone-fill\"></i> " ++ phone_number }
  let b2 : Button := { b1 with classList := b1.classList.filter (fun c => c != "btn-primary") }
  let b3 : Button :=
    { b2 with classList :=
        if b2.classList.contains "btn-success" then b2.classList
        else b2.classList ++ ["btn-success"] }
  { s with button := b3 }

/-- The failure callback `.catch(error => ...)`, for the lookup `k`. -/
def phoneFailed (k : Lookup) (error : String) (s : Control) : Control :=
  let s1 : Control := { s with console := s.console ++ ["Error revealing phone: " ++ error] }
  let s2 : Control := { s1 with button := { s1.button with innerHTML := "Error loading phone" } }
  let s3 : Control := { s2 with button := { s2.button with disabled := false } }
  { s3 with timers := s3.timers ++ [{ due := s3.now + RESTORE_DELAY,
                                      originalContent := k.originalContent }] }

/-- The callback of the timer `t`: `button.innerHTML = originalContent`. -/
def restoreContent (t : Timer) (s : Control) : Control :=
  { s with button := { s.button with innerHTML := t.originalContent } }

/-- What happens to the control. -/
inductive Event where
  /-- The call `revealPhone(listingId, button)`. -/
  | called (listingId : String)
  /-- The pending lookup at position `i` settles. -/
  | lookupSettled (i : Nat) (outcome : PhoneOutcome)
  /-- The animation at position `i` completes. -/
  | tweenCompleted (i : Nat)
  /-- Time passes. -/
  | elapsed (ms : Nat)
  /-- The timer at position `i` fires. -/
  | timerFired (i : Nat)
  deriving DecidableEq, Repr

/-- One turn of the event loop.  A lookup settles or an animation completes only while it
is pending, and a timer fires only once its delay has passed. -/
def step (s : Control) : Event → Control
  | .called listingId => revealPhone listingId s
  | .lookupSettled i outcome =>
    match s.pending[i]? with
    | none => s
    | some k =>
      let s1 : Control := { s with pending := s.pending.eraseIdx i }
      match outcome with
      | .fulfilled phone_number => phoneLoaded phone_number s1
      | .rejected error => phoneFailed k error s1
  | .tweenCompleted i =>
    match s.tweens[i]? with
    | none => s
    | some phone_number => tweenComplete phone_number { s with tweens := s.tweens.eraseIdx i }
  | .elapsed ms => { s with now := s.now + ms }
  | .timerFired i =>
    match s.timers[i]? with
    | none => s
    | some t =>
      if t.due ≤ s.now then restoreContent t { s with timers := s.timers.eraseIdx i }
      else s

/-- The state after the events of `es` are handled one after the other. -/
def run (es : List Event) (s : Control) : Control :=
  es.foldl step s

/-- A listing page with its masked phone button, nothing pending. -/
def freshControl : Control :=
  { lang := "en", now := 0,
    button := { innerHTML := "<i class=\"bi bi-telephone\"></i> Show phone",
                disabled := false, classList := ["btn", "btn-primary"] },
    fetchLog := [], pending := [], timers := [], tweens := [], console := [] }

end Animations

namespace Hero3D

/-- The constant `MAP_CENTER.lat` of `hero_3d.js`. -/
def MAP_CENTER_lat : ℚ := 26.8

/-- The constant `MAP_CENTER.lon` of `hero_3d.js`. -/
def MAP_CENTER_lon : ℚ := 29.8

/-- The constant `MAP_SCALE` of `hero_3d.js`. -/
def MAP_SCALE : ℚ := 12.0

/-- The function `project` of `hero_3d.js`, in exact rational arithmetic: the pair `(x, y)`
of the returned `Vector3(x, y, 0)`. -/
def project (lat lon : ℚ) : ℚ × ℚ :=
  let y := (lat - MAP_CENTER_lat) * MAP_SCALE * 0.12
  let x := (lon - MAP_CENTER_lon) * MAP_SCALE * 0.1
  (x, y)

/-- The path `drawStrictGISEgypt` builds: the point of `moveTo` followed by the points of
the `lineTo` calls, the last of which returns to the first. -/
def drawStrictGISEgypt : List (ℚ × ℚ) :=
  let p1 := project 31.65 25.00
  [ p1,
    project 31.50 27.20,
    project 31.35 29.92,
    project 31.60 31.00,
    project 31.40 32.30,
    project 31.35 34.25,
    project 29.50 34.96,
    project 27.90 34.35,
    project 27.50 33.50,
    project 22.00 36.80,
    project 22.00 25.00,
    p1 ]

/-- An entry of the list `getGISCityData` returns. -/
structure City where
  name : String
  ar : String
  id : String
  lat : ℚ
  lon : ℚ
  special : Bool
  deriving DecidableEq, Repr

/-- The function `getGISCityData` of `hero_3d.js`; an absent `special` is `false`. -/
def getGISCityData : List City :=
  [ ⟨"Cairo", "القاهرة", "CAIRO", 30.04, 31.23, true⟩,
    ⟨"Giza", "الجيزة", "GIZA", 29.98, 31.13, false⟩,
    ⟨"Alexandria", "الإسكندرية", "ALEX", 31.20, 29.91, true⟩,
    ⟨"Port Said", "بورسعيد", "PORT_SAID", 31.26, 32.30, false⟩,
    ⟨"Suez", "السويس", "SUEZ", 29.97, 32.53, false⟩,
    ⟨"Marsa Matrouh", "مرسى مطروح", "MATROUH", 31.35, 27.23, false⟩,
    ⟨"Sharm El Sheikh", "شرم الشيخ", "SHARM", 27.91, 34.32, true⟩,
    ⟨"Hurghada", "الغردقة", "HURGHADA", 27.25, 33.81, false⟩,
    ⟨"Luxor", "الأقصر", "LUXOR", 25.68, 32.64, true⟩,
    ⟨"Aswan", "أسوان", "ASWAN", 24.08, 32.89, false⟩,
    ⟨"Siwa", "سيوة", "SIWA", 29.20, 25.52, false⟩,
    ⟨"Minya", "المنيا", "MINYA", 28.10, 30.75, false⟩,
    ⟨"Asyut", "أسيوط", "ASYUT", 27.18, 31.18, false⟩,
    ⟨"Sohag", "سوهاج", "SOHAG", 26.56, 31.69, false⟩,
    ⟨"Qena", "قنا", "QENA", 26.16, 32.72, false⟩,
    ⟨"Ismailia", "الإسماعيلية", "ISMAILIA", 30.59, 32.27, false⟩,
    ⟨"Tanta", "طنطا", "GHARBIA", 30.78, 31.00, false⟩,
    ⟨"Mansoura", "المنصورة", "DAKAHLIA", 31.04, 31.38, false⟩,
    ⟨"Zagazig", "الزقازيق", "SHARKIA", 30.58, 31.50, false⟩,
    ⟨"Faiyum", "الفيوم", "FAIYUM", 29.31, 30.84, false⟩,
    ⟨"Beni Suef", "بني سويف", "BENI_SUEF", 29.07, 31.10, false⟩,
    ⟨"Damietta", "دمياط", "DAMIETTA", 31.41, 31.81, false⟩,
    ⟨"Kafr El Sheikh", "كفر الشيخ", "KAFR_EL_SHEIKH", 31.11, 30.94, false⟩,
    ⟨"Benha", "بنها", "QALIUBIYA", 30.46, 31.18, false⟩,
    ⟨"Shebin El Kom", "شبين الكوم", "MENOUFIA", 30.55, 31.01, false⟩,
    ⟨"Damanhur", "دمنهور", "BEHEIRA", 31.04, 30.47, false⟩,
    ⟨"Arish", "العريش", "NORTH_SINAI", 31.13, 33.80, false⟩,
    ⟨"El Alamein", "العلمين", "ALAMEIN", 30.83, 28.95, false⟩,
    ⟨"Dahab", "دهب", "DAHAB", 28.50, 34.51, false⟩,
    ⟨"Nuweiba", "نويبع", "SOUTH_SINAI", 29.04, 34.64, false⟩,
    ⟨"Safaga", "سفاجا", "RED_SEA", 26.73, 33.93, false⟩,
    ⟨"Marsa Alam", "مرسى علم", "MARSA_ALAM", 25.07, 34.89, false⟩,
    ⟨"Kharga", "الخارجة", "NEW_VALLEY", 25.44, 30.55, false⟩,
    ⟨"Dakhla", "الداخلة", "NEW_VALLEY", 25.51, 29.17, false⟩ ]

/-- The position `(v.x, v.y)` at which `initHero3D` places the marker of `city`, in the
plane of the outline (marker and outline belong to the same group, neither shifted in
`x` or `y`). -/
def markerPosition (city : City) : ℚ × ℚ :=
  project city.lat city.lon

/-- The edges of a path: each point paired with the next one. -/
def edges (path : List (ℚ × ℚ)) : List ((ℚ × ℚ) × (ℚ × ℚ)) :=
  path.zip path.tail

/-- Whether `p` lies on the closed segment from `a` to `b`: collinear with the endpoints
and within their bounding box. -/
def onSegment (p : ℚ × ℚ) (e : (ℚ × ℚ) × (ℚ × ℚ)) : Bool :=
  decide ((e.2.1 - e.1.1) * (p.2 - e.1.2) = (e.2.2 - e.1.2) * (p.1 - e.1.1))
    && decide (min e.1.1 e.2.1 ≤ p.1) && decide (p.1 ≤ max e.1.1 e.2.1)
    && decide (min e.1.2 e.2.2 ≤ p.2) && decide (p.2 ≤ max e.1.2 e.2.2)

/-- Whether the half-line going from `p` in the direction of growing `x` crosses the edge
`e`: the endpoints lie on different sides of the height of `p` (an endpoint at that
height counts as below), and the edge is at that height strictly beyond `p`. -/
def crossesEastRay (p : ℚ × ℚ) (e : (ℚ × ℚ) × (ℚ × ℚ)) : Bool :=
  (decide (p.2 < e.1.2) != decide (p.2 < e.2.2))
    && decide (p.1 < e.1.1 + (p.2 - e.1.2) / (e.2.2 - e.1.2) * (e.2.1 - e.1.1))

/-- Whether `p` lies inside the closed polygon bounded by the closed path `path`, the
containment the comment "Strict Containment" of `drawStrictGISEgypt` speaks of: `p` is
on an edge, or separated from infinity by an odd number of edges (the even-odd rule). -/
def insideClosed (path : List (ℚ × ℚ)) (p : ℚ × ℚ) : Bool :=
  (edges path).any (onSegment p) || ((edges path).countP (crossesEastRay p)) % 2 == 1

end Hero3D

namespace Compare

/-! ## The compare-list manager -/

theorem storedIds_setItem (ids : List String) (s : Page) :
    storedIds (setItem ids s) = ids := rfl

theorem compareIds_updateCompareUI (s : Page) :
    (updateCompareUI s).compareIds = s.compareIds := by
  unfold updateCompareUI throwTypeError
  dsimp only
  split <;> split <;> (try split) <;> rfl

theorem filter_bne_eq (X : String) (l : List String) :
    l.filter (fun y => y != X) = l.filter (fun y => y ≠ X) := by
  congr 1
  funext y
  by_cases h : y = X <;> simp [h]

theorem storedIds_updateCompareUI (s : Page) :
    storedIds (updateCompareUI s) = storedIds s := by
  simp only [storedIds, compareIds_updateCompareUI]

/-- What `toggleCompare` leaves in storage, as a function of what it found there. -/
theorem storedIds_toggleCompare (X : String) (s : Page) :
    storedIds (toggleCompare X s) =
      if X ∈ storedIds s then (storedIds s).filter (fun y => y != X)
      else if MAX_CARS ≤ (storedIds s).length then storedIds s
      else storedIds s ++ [X] := by
  unfold toggleCompare
  by_cases h : X ∈ storedIds s
  · simp [h, storedIds_updateCompareUI, storedIds_setItem]
  · by_cases hcap : MAX_CARS ≤ (storedIds s).length
    · simp [h, hcap]
      rfl
    · simp [h, hcap, storedIds_updateCompareUI, storedIds_setItem]

/-- C1. `toggleCompare X` on a persisted list `S`: when `X` is in `S`, storage then holds
`S` with every occurrence of `X` filtered out, the other ids in their order; when `X` is
not in `S` and `S` has fewer than 3 ids, storage then holds `S` with `X` appended. -/
theorem toggleCompare_contract (X : String) (s : Page) :
    (X ∈ storedIds s →
      (toggleCompare X s).compareIds = some ((storedIds s).filter (fun y => y ≠ X))
        ∧ X ∉ storedIds (toggleCompare X s)) ∧
    (X ∉ storedIds s → (storedIds s).length < 3 →
      (toggleCompare X s).compareIds = some (storedIds s ++ [X])) := by
  refine ⟨fun h => ?_, fun h hlen => ?_⟩
  · have hc : (toggleCompare X s).compareIds
        = some ((storedIds s).filter (fun y => y ≠ X)) := by
      unfold toggleCompare
      dsimp only
      have hc : (storedIds s).contains X = true := by simpa using h
      rw [if_pos hc, compareIds_updateCompareUI]
      simp only [setItem, filter_bne_eq]
    refine ⟨hc, ?_⟩
    simp [storedIds, hc, List.mem_filter]
  · have hcap : ¬ MAX_CARS ≤ (storedIds s).length := by
      simp only [MAX_CARS]; omega
    unfold toggleCompare
    simp [h, hcap, compareIds_updateCompareUI, setItem]

/-- C1, at the spec's end-to-end input (the list `["A","B"]`, toggle `"C"`) and on the
removal of `"A"` from the same list. -/
theorem toggleCompare_contract_witness :
    "C" ∉ storedIds (pageWith ["A", "B"]) ∧ (storedIds (pageWith ["A", "B"])).length < 3 ∧
      (toggleCompare "C" (pageWith ["A", "B"])).compareIds = some ["A", "B", "C"] ∧
      (toggleCompare "A" (pageWith ["A", "B"])).compareIds = some ["B"] :=
  ⟨by decide, by decide,
    (toggleCompare_contract "C" (pageWith ["A", "B"])).2 (by decide) (by decide),
    ((toggleCompare_contract "A" (pageWith ["A", "B"])).1 (by decide)).1⟩

/-- C2. The compare list never grows past 3: a toggle on a persisted list of at most 3 ids
leaves a persisted list of at most 3 ids, and so does every sequence of toggles that
starts from empty storage. -/
theorem toggleCompare_length_le (s : Page) :
    (∀ X, (storedIds s).length ≤ 3 → (storedIds (toggleCompare X s)).length ≤ 3) ∧
    (storedIds s = [] → ∀ xs, (storedIds (toggleAll xs s)).length ≤ 3) := by
  have one : ∀ (t : Page) (X : String), (storedIds t).length ≤ 3 →
      (storedIds (toggleCompare X t)).length ≤ 3 := by
    intro t X ht
    rw [storedIds_toggleCompare]
    split
    · exact le_trans (List.length_filter_le _ _) ht
    · split
      · exact ht
      · rename_i hcap
        simp only [MAX_CARS] at hcap
        simp only [List.length_append, List.length_singleton]
        omega
  have many : ∀ (xs : List String) (t : Page), (storedIds t).length ≤ 3 →
      (storedIds (toggleAll xs t)).length ≤ 3 := by
    intro xs
    induction xs with
    | nil => intro t ht; exact ht
    | cons x xs ih => intro t ht; exact ih (toggleCompare x t) (one t x ht)
  exact ⟨fun X h => one s X h, fun h xs => many xs s (by simp [h])⟩

/-- C2, on a full list and on a run of five toggles from empty storage. -/
theorem toggleCompare_length_le_witness :
    (storedIds (toggleCompare "D" (pageWith ["A", "B", "C"]))).length ≤ 3 ∧
      (storedIds (toggleAll ["A", "B", "C", "D", "A"] freshPage)).length ≤ 3 :=
  ⟨(toggleCompare_length_le (pageWith ["A", "B", "C"])).1 "D" (by decide),
    (toggleCompare_length_le freshPage).2 (by decide) ["A", "B", "C", "D", "A"]⟩

/-- C3. With 3 ids persisted and `X` not among them, `toggleCompare X` shows the capacity
alert and changes nothing else: storage, the log of storage writes, the checkboxes, the
bar and the counter are as before. -/
theorem toggleCompare_at_capacity (X : String) (s : Page)
    (hlen : (storedIds s).length = 3) (hX : X ∉ storedIds s) :
    toggleCompare X s = { s with alerts := s.alerts ++ ["You can only compare up to 3 cars."] }
      ∧ (toggleCompare X s).compareIds = s.compareIds
      ∧ (toggleCompare X s).setItemLog = s.setItemLog
      ∧ (toggleCompare X s).checkboxes = s.checkboxes
      ∧ (toggleCompare X s).compareBar = s.compareBar
      ∧ (toggleCompare X s).compareCount = s.compareCount := by
  have h : toggleCompare X s
      = { s with alerts := s.alerts ++ ["You can only compare up to 3 cars."] } := by
    unfold toggleCompare
    have hm : capacityMessage = "You can only compare up to 3 cars." := by decide
    simp [hX, hlen, MAX_CARS, hm]
  refine ⟨h, ?_⟩
  rw [h]
  exact ⟨rfl, rfl, rfl, rfl, rfl⟩

/-- C3, toggling a fourth id `"D"` on the list `["A","B","C"]`. -/
theorem toggleCompare_at_capacity_witness :
    toggleCompare "D" (pageWith ["A", "B", "C"])
      = { pageWith ["A", "B", "C"] with alerts := ["You can only compare up to 3 cars."] } :=
  (toggleCompare_at_capacity "D" (pageWith ["A", "B", "C"]) (by decide) (by decide)).1

/-- Toggling an id that is persisted and then toggling it again, on a list of at most 3
ids: the id is dropped and then appended. -/
theorem storedIds_toggle_twice_mem (X : String) (s : Page)
    (hlen : (storedIds s).length ≤ 3) (hX : X ∈ storedIds s) :
    storedIds (toggleCompare X (toggleCompare X s))
      = (storedIds s).filter (fun y => y != X) ++ [X] := by
  have h1 : storedIds (toggleCompare X s) = (storedIds s).filter (fun y => y != X) := by
    rw [storedIds_toggleCompare, if_pos hX]
  have hnot : X ∉ storedIds (toggleCompare X s) := by
    rw [h1]; simp [List.mem_filter]
  have hlt : ((storedIds s).filter (fun y => y != X)).length < (storedIds s).length :=
    List.length_filter_lt_length_iff_exists.mpr ⟨X, hX, by simp⟩
  have hcap : ¬ MAX_CARS ≤ (storedIds (toggleCompare X s)).length := by
    rw [h1]; simp only [MAX_CARS]; omega
  rw [storedIds_toggleCompare, if_neg hnot, if_neg hcap, h1]

/-- Toggling an id that is not persisted and then toggling it again restores the list. -/
theorem storedIds_toggle_twice_not_mem (X : String) (s : Page) (hX : X ∉ storedIds s) :
    storedIds (toggleCompare X (toggleCompare X s)) = storedIds s := by
  by_cases hcap : MAX_CARS ≤ (storedIds s).length
  · have h1 : storedIds (toggleCompare X s) = storedIds s := by
      rw [storedIds_toggleCompare, if_neg hX, if_pos hcap]
    rw [storedIds_toggleCompare, h1, if_neg hX, if_pos hcap]
  · have h1 : storedIds (toggleCompare X s) = storedIds s ++ [X] := by
      rw [storedIds_toggleCompare, if_neg hX, if_neg hcap]
    have hin : X ∈ storedIds (toggleCompare X s) := by rw [h1]; simp
    rw [storedIds_toggleCompare, if_pos hin, h1, List.filter_append]
    have hkeep : (storedIds s).filter (fun y => y != X) = storedIds s := by
      rw [List.filter_eq_self]
      intro a ha
      have : a ≠ X := fun e => hX (e ▸ ha)
      simpa using this
    rw [hkeep]
    simp

/-- C4, as the claim states it, fails: on the list `["A","B"]`, which has at most 3
distinct ids, toggling `"A"` twice persists `["B","A"]`, not `["A","B"]`. -/
theorem toggleCompare_twice_counterexample :
    (storedIds (pageWith ["A", "B"])).length ≤ 3 ∧ (storedIds (pageWith ["A", "B"])).Nodup ∧
      storedIds (toggleCompare "A" (toggleCompare "A" (pageWith ["A", "B"]))) = ["B", "A"] ∧
      storedIds (toggleCompare "A" (toggleCompare "A" (pageWith ["A", "B"])))
        ≠ storedIds (pageWith ["A", "B"]) := by
  decide

/-- C4, amended. On a persisted list `S` of at most 3 distinct ids, toggling `X` twice
leaves a list with the same ids as `S` (a permutation of `S`): exactly `S` when `X` was
not in `S`, and `S` with `X` moved to the end when `X` was in `S`. -/
theorem toggleCompare_twice (X : String) (s : Page)
    (hlen : (storedIds s).length ≤ 3) (hnd : (storedIds s).Nodup) :
    (storedIds (toggleCompare X (toggleCompare X s))).Perm (storedIds s) ∧
    (X ∉ storedIds s → storedIds (toggleCompare X (toggleCompare X s)) = storedIds s) ∧
    (X ∈ storedIds s → storedIds (toggleCompare X (toggleCompare X s))
        = (storedIds s).filter (fun y => y ≠ X) ++ [X]) := by
  refine ⟨?_, storedIds_toggle_twice_not_mem X s, fun hX => ?_⟩
  · by_cases hX : X ∈ storedIds s
    · rw [storedIds_toggle_twice_mem X s hlen hX, ← hnd.erase_eq_filter X]
      exact (List.perm_append_singleton X _).trans (List.perm_cons_erase hX).symm
    · rw [storedIds_toggle_twice_not_mem X s hX]
  · rw [storedIds_toggle_twice_mem X s hlen hX, filter_bne_eq]

/-- C4 amended, at the spec's end-to-end input (`["A","B"]`, toggle `"C"` twice) and at
the input of the counterexample (`["A","B"]`, toggle `"A"` twice). -/
theorem toggleCompare_twice_witness :
    storedIds (toggleCompare "C" (toggleCompare "C" (pageWith ["A", "B"]))) = ["A", "B"] ∧
      (storedIds (toggleCompare "A" (toggleCompare "A" (pageWith ["A", "B"])))).Perm
        ["A", "B"] :=
  ⟨(toggleCompare_twice "C" (pageWith ["A", "B"]) (by decide) (by decide)).2.1 (by decide),
    (toggleCompare_twice "A" (pageWith ["A", "B"]) (by decide) (by decide)).1⟩

/-- C5. The compare list holds no id twice: a toggle on a persisted list without repeated
ids leaves a persisted list without repeated ids, and so does every sequence of toggles
that starts from empty storage. -/
theorem toggleCompare_nodup (s : Page) :
    (∀ X, (storedIds s).Nodup → (storedIds (toggleCompare X s)).Nodup) ∧
    (storedIds s = [] → ∀ xs, (storedIds (toggleAll xs s)).Nodup) := by
  have one : ∀ (t : Page) (X : String), (storedIds t).Nodup →
      (storedIds (toggleCompare X t)).Nodup := by
    intro t X ht
    rw [storedIds_toggleCompare]
    split
    · exact ht.filter _
    · split
      · exact ht
      · rename_i hX _
        rw [List.nodup_append]
        refine ⟨ht, List.nodup_singleton X, ?_⟩
        intro a ha hb
        rw [List.mem_singleton] at hb
        exact hX (hb ▸ ha)
  have many : ∀ (xs : List String) (t : Page), (storedIds t).Nodup →
      (storedIds (toggleAll xs t)).Nodup := by
    intro xs
    induction xs with
    | nil => intro t ht; exact ht
    | cons x xs ih => intro t ht; exact ih (toggleCompare x t) (one t x ht)
  exact ⟨fun X h => one s X h, fun h xs => many xs s (by simp [h])⟩

/-- C5, on one toggle of a duplicate-free list and on a run of toggles from empty
storage. -/
theorem toggleCompare_nodup_witness :
    (storedIds (toggleCompare "C" (pageWith ["A", "B"]))).Nodup ∧
      (storedIds (toggleAll ["A", "B", "A", "A", "C", "D"] freshPage)).Nodup :=
  ⟨(toggleCompare_nodup (pageWith ["A", "B"])).1 "C" (by decide),
    (toggleCompare_nodup freshPage).2 (by decide) ["A", "B", "A", "A", "C", "D"]⟩

/-- The bar after `updateCompareUI`, when the page has one: hidden exactly when nothing
is persisted. -/
theorem barHidden_updateCompareUI (s : Page) (hbar : s.compareBar ≠ none) :
    (updateCompareUI s).compareBar ≠ none ∧
      (barHidden (updateCompareUI s) = true ↔ storedIds (updateCompareUI s) = []) := by
  rw [storedIds_updateCompareUI]
  obtain ⟨cl, hcl⟩ := Option.ne_none_iff_exists.mp hbar
  unfold updateCompareUI throwTypeError
  dsimp only
  rw [← hcl]
  by_cases hpos : (storedIds s).length > 0
  · have hne : storedIds s ≠ [] := List.length_pos.mp hpos
    rw [if_pos hpos]
    dsimp only
    cases s.compareCount <;>
      simp [barHidden, classListRemove, List.mem_filter, hne]
  · have he : storedIds s = [] := by
      apply List.length_eq_zero.mp
      omega
    rw [if_neg hpos]
    by_cases hin : "d-none" ∈ cl <;> simp [barHidden, classListAdd, hin, he]

/-- C6. After `updateCompareUI` has run, at page load and after every accepted toggle,
the compare bar carries the class `d-none` if and only if the persisted compare list is
empty, whatever class list the bar had before. -/
theorem compareBar_hidden_iff_empty (s : Page) (hbar : s.compareBar ≠ none) :
    (barHidden (updateCompareUI s) = true ↔ storedIds (updateCompareUI s) = []) ∧
    (barHidden (onDOMContentLoaded s) = true ↔ storedIds (onDOMContentLoaded s) = []) ∧
    (∀ X, X ∈ storedIds s ∨ (storedIds s).length < 3 →
      (barHidden (toggleCompare X s) = true ↔ storedIds (toggleCompare X s) = [])) := by
  refine ⟨(barHidden_updateCompareUI s hbar).2, (barHidden_updateCompareUI s hbar).2, ?_⟩
  intro X hacc
  by_cases hX : X ∈ storedIds s
  · have hc : (storedIds s).contains X = true := by simpa using hX
    have e : toggleCompare X s
        = updateCompareUI (setItem ((storedIds s).filter (fun y => y != X)) s) := by
      unfold toggleCompare
      dsimp only
      rw [if_pos hc]
    rw [e]
    exact (barHidden_updateCompareUI
      (setItem ((storedIds s).filter (fun y => y != X)) s) hbar).2
  · have hlt : (storedIds s).length < 3 := hacc.resolve_left hX
    have hc : ¬ (storedIds s).contains X = true := by simpa using hX
    have hcap : ¬ (storedIds s).length ≥ MAX_CARS := by
      simp only [MAX_CARS]; omega
    have e : toggleCompare X s = updateCompareUI (setItem (storedIds s ++ [X]) s) := by
      unfold toggleCompare
      dsimp only
      rw [if_neg hc, if_neg hcap]
    rw [e]
    exact (barHidden_updateCompareUI (setItem (storedIds s ++ [X]) s) hbar).2

/-- C6, on a page whose bar is shown while nothing is persisted, and on a page whose bar
carries `d-none` twice while one id gets persisted. -/
theorem compareBar_hidden_iff_empty_witness :
    barHidden (updateCompareUI { freshPage with compareBar := some ["compare-bar"] }) = true ∧
      barHidden (toggleCompare "A"
        { freshPage with compareBar := some ["d-none", "compare-bar", "d-none"] }) = false :=
  ⟨(compareBar_hidden_iff_empty { freshPage with compareBar := some ["compare-bar"] }
      (by decide)).1.mpr (by decide),
    by
      have h := (compareBar_hidden_iff_empty
        { freshPage with compareBar := some ["d-none", "compare-bar", "d-none"] }
        (by decide)).2.2 "A" (Or.inr (by decide))
      cases hb : barHidden (toggleCompare "A"
        { freshPage with compareBar := some ["d-none", "compare-bar", "d-none"] })
      · rfl
      · exact absurd (h.mp hb) (by decide)⟩

/-- C7. The compare action on a persisted list `S`: with fewer than 2 ids it shows the
minimum-selection alert and does not navigate; with 2 ids or more it navigates to
`/compare/?ids=` followed by the ids of `S` joined by `,` in stored order. -/
theorem compareBtnClick_contract (s : Page) :
    ((storedIds s).length < 2 →
      compareBtnClick s
        = { s with alerts := s.alerts ++ ["Please select at least 2 cars to compare."] }
      ∧ (compareBtnClick s).href = s.href) ∧
    (2 ≤ (storedIds s).length →
      (compareBtnClick s).href = some ("/compare/?ids=" ++ ",".intercalate (storedIds s))
      ∧ (compareBtnClick s).alerts = s.alerts) := by
  refine ⟨fun h => ?_, fun h => ?_⟩
  · have e : compareBtnClick s
        = { s with alerts := s.alerts ++ ["Please select at least 2 cars to compare."] } := by
      unfold compareBtnClick
      dsimp only
      rw [if_pos h]
      rfl
    refine ⟨e, ?_⟩
    rw [e]
  · have hn : ¬ (storedIds s).length < 2 := by omega
    unfold compareBtnClick
    dsimp only
    rw [if_neg hn]
    exact ⟨rfl, rfl⟩

/-- C7, on the lists `["A"]` (rejected) and `["A","B","C"]` (navigation). -/
theorem compareBtnClick_contract_witness :
    (compareBtnClick (pageWith ["A"])).href = none ∧
      (compareBtnClick (pageWith ["A"])).alerts
        = ["Please select at least 2 cars to compare."] ∧
      (compareBtnClick (pageWith ["A", "B", "C"])).href = some "/compare/?ids=A,B,C" :=
  ⟨((compareBtnClick_contract (pageWith ["A"])).1 (by decide)).2,
    congrArg Page.alerts ((compareBtnClick_contract (pageWith ["A"])).1 (by decide)).1,
    ((compareBtnClick_contract (pageWith ["A", "B", "C"])).2 (by decide)).1⟩

end Compare

namespace Dropdowns

/-! ## The make-change handler of the cascading selection resolver -/

/-- The option `data.forEach` creates for one element of the models response. -/
theorem appendModel_modelOptions (s : Form) (m : ModelItem) :
    (appendModel s m).modelOptions
      = s.modelOptions ++ [{ value := m.id.toDOMString, text := m.name, dataset := [] }] :=
  rfl

theorem foldl_appendModel_modelOptions (L : List ModelItem) (s : Form) :
    (L.foldl appendModel s).modelOptions
      = s.modelOptions
        ++ L.map (fun m => { value := m.id.toDOMString, text := m.name, dataset := [] }) := by
  induction L generalizing s with
  | nil => simp
  | cons m L ih => rw [List.foldl_cons, ih, appendModel_modelOptions]; simp

theorem foldl_appendModel_trimOptions (L : List ModelItem) (s : Form) :
    (L.foldl appendModel s).trimOptions = s.trimOptions := by
  induction L generalizing s with
  | nil => rfl
  | cons m L ih => rw [List.foldl_cons, ih]; rfl

theorem modelsLoaded_modelOptions (L : List ModelItem) (s : Form) :
    (modelsLoaded L s).modelOptions
      = placeholder "Select Model"
        :: L.map (fun m => { value := m.id.toDOMString, text := m.name, dataset := [] }) := by
  unfold modelsLoaded
  dsimp only
  rw [foldl_appendModel_modelOptions]
  rfl

theorem modelsLoaded_trimOptions (L : List ModelItem) (s : Form) :
    (modelsLoaded L s).trimOptions = s.trimOptions := by
  unfold modelsLoaded
  dsimp only
  rw [foldl_appendModel_trimOptions]

/-- C8. When a pending models lookup succeeds with the list `L`, the options of the model
widget become the empty-valued placeholder "Select Model" followed by one option per
element of `L`, in the order of `L`, with value the id and text the name; for an empty
`L` the widget holds the placeholder alone. -/
theorem models_success_options (url : String) (L : List ModelItem) (s : Form)
    (hp : url ∈ s.pending) :
    (step s (.modelsSettled url (.fulfilled L))).modelOptions
        = { value := "", text := "Select Model", dataset := [] }
          :: L.map (fun m => { value := m.id.toDOMString, text := m.name, dataset := [] })
      ∧ (L = [] → (step s (.modelsSettled url (.fulfilled L))).modelOptions
          = [{ value := "", text := "Select Model", dataset := [] }]) := by
  have hc : s.pending.contains url = true := by simpa using hp
  have e : (step s (.modelsSettled url (.fulfilled L))).modelOptions
      = { value := "", text := "Select Model", dataset := [] }
        :: L.map (fun m => { value := m.id.toDOMString, text := m.name, dataset := [] }) := by
    unfold step
    dsimp only
    rw [if_pos hc, modelsLoaded_modelOptions]
    rfl
  refine ⟨e, fun hL => ?_⟩
  rw [e, hL]
  rfl

/-- C8, at the spec's end-to-end input: a make is selected and the server answers
`[{id: 1, name: "Corolla"}]`. -/
theorem models_success_options_witness :
    (step (makeChange "TOYOTA" freshForm)
        (.modelsSettled "/en/ajax/load-models/?make_id=TOYOTA"
          (.fulfilled [{ id := .num 1, name := "Corolla" }]))).modelOptions
      = [{ value := "", text := "Select Model", dataset := [] },
         { value := "1", text := "Corolla", dataset := [] }] :=
  (models_success_options "/en/ajax/load-models/?make_id=TOYOTA"
    [{ id := .num 1, name := "Corolla" }] (makeChange "TOYOTA" freshForm) (by decide)).1

/-- C9, as the claim states it, fails: after a make change with the non-empty id `"7"`
the trim widget holds the placeholder "Select Trim", not a loading placeholder. -/
theorem makeChange_trim_loading_counterexample :
    "7" ≠ "" ∧
      (makeChange "7" freshForm).trimOptions
        = [{ value := "", text := "Select Trim", dataset := [] }] ∧
      (makeChange "7" freshForm).trimOptions
        ≠ [{ value := "", text := "Loading...", dataset := [] }] ∧
      (∀ o ∈ (makeChange "7" freshForm).trimOptions, o.text ≠ "Loading...") := by
  decide

/-- C9, amended. On a make change with a non-empty `makeId`, when the handler returns the
model widget holds the single placeholder "Loading...", the trim widget holds the single
placeholder "Select Trim", and exactly one lookup, the models lookup for `makeId`, has
been issued and is pending. -/
theorem makeChange_nonempty (makeId : String) (s : Form) (h : makeId ≠ "") :
    (makeChange makeId s).modelOptions
        = [{ value := "", text := "Loading...", dataset := [] }] ∧
      (makeChange makeId s).trimOptions
        = [{ value := "", text := "Select Trim", dataset := [] }] ∧
      (makeChange makeId s).fetchLog
        = s.fetchLog ++ ["/" ++ currentLang s ++ "/ajax/load-models/?make_id=" ++ makeId] ∧
      (makeChange makeId s).pending
        = s.pending ++ ["/" ++ currentLang s ++ "/ajax/load-models/?make_id=" ++ makeId] := by
  unfold makeChange
  dsimp only
  rw [if_neg h]
  exact ⟨rfl, rfl, rfl, rfl⟩

/-- C9 amended, on the make id `"7"` of a page in English. -/
theorem makeChange_nonempty_witness :
    (makeChange "7" freshForm).modelOptions
        = [{ value := "", text := "Loading...", dataset := [] }] ∧
      (makeChange "7" freshForm).trimOptions
        = [{ value := "", text := "Select Trim", dataset := [] }] ∧
      (makeChange "7" freshForm).fetchLog = ["/en/ajax/load-models/?make_id=7"] ∧
      (makeChange "7" freshForm).pending = ["/en/ajax/load-models/?make_id=7"] :=
  makeChange_nonempty "7" freshForm (by decide)

theorem makeChange_empty (s : Form) :
    makeChange "" s
      = { s with modelOptions := [placeholder "Select Model"],
                 trimOptions := [placeholder "Select Trim"] } := by
  unfold makeChange
  simp

theorem pending_makeChange (makeId : String) (s : Form) (h : makeId ≠ "") :
    (makeChange makeId s).pending = s.pending ++ [modelsUrl (currentLang s) makeId] := by
  unfold makeChange
  dsimp only
  rw [if_neg h]
  rfl

/-- A pending lookup settling leaves the trim widget as it is and sets the model widget
from the outcome alone. -/
theorem step_modelsSettled (url : String) (outcome : Outcome) (s : Form)
    (hp : url ∈ s.pending) :
    (step s (.modelsSettled url outcome)).trimOptions = s.trimOptions ∧
      (step s (.modelsSettled url outcome)).modelOptions
        = match outcome with
          | .fulfilled L =>
            placeholder "Select Model"
              :: L.map (fun m => { value := m.id.toDOMString, text := m.name, dataset := [] })
          | .rejected _ => [placeholder "Error loading models"] := by
  have hc : s.pending.contains url = true := by simpa using hp
  unfold step
  dsimp only
  rw [if_pos hc]
  cases outcome with
  | fulfilled L => exact ⟨modelsLoaded_trimOptions L _, modelsLoaded_modelOptions L _⟩
  | rejected e => exact ⟨rfl, rfl⟩

/-- C10, as the claim states it, fails: when the clear event is handled before the
response of the earlier selection, a successful response puts its models back into the
model widget and a failed one puts the error placeholder there. -/
theorem select_then_clear_counterexample :
    (run [.makeChanged "7", .makeChanged "",
          .modelsSettled "/en/ajax/load-models/?make_id=7"
            (.fulfilled [{ id := .num 1, name := "Corolla" }])] freshForm).modelOptions
        = [{ value := "", text := "Select Model", dataset := [] },
           { value := "1", text := "Corolla", dataset := [] }] ∧
      (run [.makeChanged "7", .makeChanged "",
          .modelsSettled "/en/ajax/load-models/?make_id=7"
            (.fulfilled [{ id := .num 1, name := "Corolla" }])] freshForm).modelOptions
        ≠ [{ value := "", text := "Select Model", dataset := [] }] ∧
      (run [.makeChanged "7", .makeChanged "",
          .modelsSettled "/en/ajax/load-models/?make_id=7"
            (.rejected "TypeError: Failed to fetch")] freshForm).modelOptions
        = [{ value := "", text := "Error loading models", dataset := [] }] := by
  decide

/-- C10, amended. After a make is selected and then cleared, both widgets hold their
placeholder ("Select Model", "Select Trim") when the clear handler returns, whether the
response of the earlier lookup was handled before the clear event or is still pending.
A response handled after the clear event leaves the trim widget at "Select Trim" and
sets the model widget from the response: "Select Model" followed by the returned models
on success, the error placeholder on failure. -/
theorem select_then_clear (makeId : String) (outcome : Outcome) (s : Form)
    (h : makeId ≠ "") :
    ((run [.makeChanged makeId, .modelsSettled (modelsUrl (currentLang s) makeId) outcome,
            .makeChanged ""] s).modelOptions
          = [{ value := "", text := "Select Model", dataset := [] }] ∧
      (run [.makeChanged makeId, .modelsSettled (modelsUrl (currentLang s) makeId) outcome,
            .makeChanged ""] s).trimOptions
          = [{ value := "", text := "Select Trim", dataset := [] }]) ∧
    ((run [.makeChanged makeId, .makeChanged ""] s).modelOptions
          = [{ value := "", text := "Select Model", dataset := [] }] ∧
      (run [.makeChanged makeId, .makeChanged ""] s).trimOptions
          = [{ value := "", text := "Select Trim", dataset := [] }]) ∧
    ((run [.makeChanged makeId, .makeChanged "",
            .modelsSettled (modelsUrl (currentLang s) makeId) outcome] s).trimOptions
          = [{ value := "", text := "Select Trim", dataset := [] }] ∧
      (run [.makeChanged makeId, .makeChanged "",
            .modelsSettled (modelsUrl (currentLang s) makeId) outcome] s).modelOptions
          = match outcome with
            | .fulfilled L =>
              { value := "", text := "Select Model", dataset := [] }
                :: L.map (fun m => { value := m.id.toDOMString, text := m.name, dataset := [] })
            | .rejected _ => [{ value := "", text := "Error loading models", dataset := [] }]) := by
  refine ⟨?_, ?_, ?_⟩
  · simp only [run, List.foldl_cons, List.foldl_nil, step, makeChange_empty]
    exact ⟨rfl, rfl⟩
  · simp only [run, List.foldl_cons, List.foldl_nil, step, makeChange_empty]
    exact ⟨rfl, rfl⟩
  · have hp : modelsUrl (currentLang s) makeId
        ∈ (step (step s (.makeChanged makeId)) (.makeChanged "")).pending := by
      simp only [step, makeChange_empty, pending_makeChange makeId s h]
      simp
    have key := step_modelsSettled (modelsUrl (currentLang s) makeId) outcome
      (step (step s (.makeChanged makeId)) (.makeChanged "")) hp
    simp only [run, List.foldl_cons, List.foldl_nil]
    refine ⟨?_, ?_⟩
    · rw [key.1]
      simp only [step, makeChange_empty]
      rfl
    · rw [key.2]
      cases outcome <;> rfl

/-- C10 amended, on the make id `"7"` and a response `[{id: 1, name: "Corolla"}]`: the
response handled before the clear event, and after it. -/
theorem select_then_clear_witness :
    (run [.makeChanged "7",
          .modelsSettled "/en/ajax/load-models/?make_id=7"
            (.fulfilled [{ id := .num 1, name := "Corolla" }]),
          .makeChanged ""] freshForm).modelOptions
        = [{ value := "", text := "Select Model", dataset := [] }] ∧
      (run [.makeChanged "7", .makeChanged "",
          .modelsSettled "/en/ajax/load-models/?make_id=7"
            (.fulfilled [{ id := .num 1, name := "Corolla" }])] freshForm).trimOptions
        = [{ value := "", text := "Select Trim", dataset := [] }] :=
  ⟨(select_then_clear "7" (.fulfilled [{ id := .num 1, name := "Corolla" }]) freshForm
      (by decide)).1.1,
    (select_then_clear "7" (.fulfilled [{ id := .num 1, name := "Corolla" }]) freshForm
      (by decide)).2.2.1⟩

end Dropdowns

namespace Dropdowns

/-! ## The model-change and trim-change handlers -/

theorem pendingTrims_modelChange (modelId : String) (s : Form) (h : modelId ≠ "") :
    (modelChange modelId s).pendingTrims
      = s.pendingTrims ++ [trimsUrl (currentLang s) modelId] := by
  unfold modelChange
  dsimp only
  rw [if_neg h]
  rfl

/-- The option `data.forEach` creates for one element of the trims response. -/
theorem appendTrim_eq (s : Form) (t : TrimItem) :
    appendTrim s t
      = { s with trimOptions := s.trimOptions ++
            [{ value := t.id.toDOMString, text := t.display,
               dataset := [("year", t.year), ("horsepower", t.horsepower),
                           ("fuelConsumption", t.fuel_consumption)] }] } := by
  have h1 : (("year" : String) != "horsepower") = true := by decide
  have h2 : (("year" : String) != "fuelConsumption") = true := by decide
  have h3 : (("horsepower" : String) != "fuelConsumption") = true := by decide
  simp [appendTrim, datasetSet, h1, h2, h3]

theorem foldl_appendTrim (L : List TrimItem) (s : Form) :
    L.foldl appendTrim s
      = { s with trimOptions := s.trimOptions ++
            L.map (fun t => { value := t.id.toDOMString, text := t.display,
                              dataset := [("year", t.year), ("horsepower", t.horsepower),
                                          ("fuelConsumption", t.fuel_consumption)] }) } := by
  induction L generalizing s with
  | nil => simp
  | cons t L ih => rw [List.foldl_cons, ih, appendTrim_eq]; simp

/-- The success callback of the trims lookup rebuilds the options and dispatches one
`change` event, whose handler finds the placeholder selected and renders nothing. -/
theorem trimsLoaded_eq (L : List TrimItem) (s : Form) :
    trimsLoaded L s
      = { s with
          trimOptions := placeholder "Select Trim" ::
            L.map (fun t => { value := t.id.toDOMString, text := t.display,
                              dataset := [("year", t.year), ("horsepower", t.horsepower),
                                          ("fuelConsumption", t.fuel_consumption)] }),
          trimChangeEvents := s.trimChangeEvents + 1 } := by
  unfold trimsLoaded
  dsimp only
  rw [foldl_appendTrim]
  simp [dispatchTrimChange, rebuiltSelectedIndex, trimChange, optionAt, placeholder]

/-- The trim-change handler on a selected option with a non-empty value, on a page that
has the details panel. -/
theorem trimChange_renders (t : Form) (i : Int) (o : SelectOption) (d : String)
    (ho : optionAt t.trimOptions i = some o) (hv : o.value ≠ "")
    (hd : t.trimDetails = some d) :
    (trimChange i t).trimDetails
      = some (specifications (datasetGet o "year") (datasetGet o "horsepower")
          (datasetGet o "fuelConsumption")) := by
  unfold trimChange
  rw [ho]
  dsimp only
  rw [if_pos hv, hd]

theorem datasetGet_loaded (t : TrimItem) :
    datasetGet { value := t.id.toDOMString, text := t.display,
                 dataset := [("year", t.year), ("horsepower", t.horsepower),
                             ("fuelConsumption", t.fuel_consumption)] } "year" = t.year
      ∧ datasetGet
          { value := t.id.toDOMString, text := t.display,
            dataset := [("year", t.year), ("horsepower", t.horsepower),
                        ("fuelConsumption", t.fuel_consumption)] } "horsepower"
          = t.horsepower
      ∧ datasetGet
          { value := t.id.toDOMString, text := t.display,
            dataset := [("year", t.year), ("horsepower", t.horsepower),
                        ("fuelConsumption", t.fuel_consumption)] } "fuelConsumption"
          = t.fuel_consumption := by
  have h1 : (("horsepower" : String) == "year") = false := by decide
  have h2 : (("fuelConsumption" : String) == "year") = false := by decide
  have h3 : (("fuelConsumption" : String) == "horsepower") = false := by decide
  simp [datasetGet, List.lookup, h1, h2, h3]

/-- The state after a model is selected and its trims lookup succeeds with `L`. -/
theorem trimsSettled_after_modelChange (modelId : String) (L : List TrimItem) (s : Form)
    (h : modelId ≠ "") :
    trimsSettled (trimsUrl (currentLang s) modelId) (.fulfilled L) (modelChange modelId s)
      = trimsLoaded L
          { (modelChange modelId s) with
            pendingTrims :=
              (modelChange modelId s).pendingTrims.erase (trimsUrl (currentLang s) modelId) } := by
  have hc : (modelChange modelId s).pendingTrims.contains (trimsUrl (currentLang s) modelId)
      = true := by
    rw [pendingTrims_modelChange modelId s h]
    simp
  unfold trimsSettled
  dsimp only
  rw [if_pos hc]

set_option maxRecDepth 100000 in
/-- The template of the details panel, as one text with the three values spliced in. -/
theorem specifications_eq (year hp fuel : String) :
    specifications year hp fuel
      = "\n                    <div class=\"glass-card-light p-3 mt-3\">\n                        <h6>Specifications:</h6>\n                        <ul class=\"mb-0\">\n                            <li>Year: "
        ++ year ++ "</li>\n                            <li>Horsepower: "
        ++ hp ++ " HP</li>\n                            <li>Fuel Consumption: "
        ++ fuel ++ " L/100km</li>\n                        </ul>\n                    </div>\n                " := by
  have e1 : "\n                    <div class=\"glass-card-light p-3 mt-3\">"
      ++ "\n                        <h6>Specifications:</h6>"
      ++ "\n                        <ul class=\"mb-0\">"
      ++ "\n                            <li>Year: "
      = "\n                    <div class=\"glass-card-light p-3 mt-3\">\n                        <h6>Specifications:</h6>\n                        <ul class=\"mb-0\">\n                            <li>Year: " := by
    decide
  have e2 : "</li>" ++ "\n                            <li>Horsepower: "
      = "</li>\n                            <li>Horsepower: " := by decide
  have e3 : " HP</li>" ++ "\n                            <li>Fuel Consumption: "
      = " HP</li>\n                            <li>Fuel Consumption: " := by decide
  have e4 : " L/100km</li>" ++ "\n                        </ul>"
      ++ "\n                    </div>" ++ "\n                "
      = " L/100km</li>\n                        </ul>\n                    </div>\n                " := by
    decide
  rw [← e1, ← e2, ← e3, ← e4]
  unfold specifications
  simp only [String.append_assoc]

/-- An option of the rebuilt trim widget that has a non-empty value is the option of an
element of the response, at the position after the placeholder. -/
theorem optionAt_loaded (L : List TrimItem) (i : Int) (o : SelectOption)
    (ho : optionAt
      ({ value := "", text := "Select Trim", dataset := [] } ::
        L.map (fun t =>
          ({ value := t.id.toDOMString, text := t.display,
             dataset := [("year", t.year), ("horsepower", t.horsepower),
                         ("fuelConsumption", t.fuel_consumption)] } : SelectOption))) i
      = some o)
    (hv : o.value ≠ "") :
    ∃ (k : Nat) (t : TrimItem), i = (k : Int) + 1 ∧ L[k]? = some t ∧
      o = { value := t.id.toDOMString, text := t.display,
            dataset := [("year", t.year), ("horsepower", t.horsepower),
                        ("fuelConsumption", t.fuel_consumption)] } := by
  unfold optionAt at ho
  by_cases hneg : i < 0
  · rw [if_pos hneg] at ho
    exact absurd ho (by simp)
  · rw [if_neg hneg] at ho
    cases hn : i.toNat with
    | zero =>
      rw [hn, List.getElem?_cons_zero] at ho
      have ho2 : o = { value := "", text := "Select Trim", dataset := [] } :=
        (Option.some.inj ho).symm
      exact absurd (by rw [ho2]) hv
    | succ k =>
      rw [hn, List.getElem?_cons_succ, List.getElem?_map] at ho
      cases hk : L[k]? with
      | none => rw [hk] at ho; exact absurd ho (by simp)
      | some t =>
        rw [hk] at ho
        exact ⟨k, t, by omega, hk, (Option.some.inj ho).symm⟩

/-- C11. When the trims lookup issued for a non-empty `modelId` succeeds with the list
`L`, the options of the trim widget become the placeholder "Select Trim" followed by one
option per element of `L`, in order, with value the id, text the display label and the
year, horsepower and fuel consumption attached as data; exactly one `change` event is
then dispatched on the trim widget, whose handler finds the placeholder selected and
leaves the details panel as it was.  On the rebuilt widget the trim-change handler writes
the year, horsepower and fuel consumption of the selected option into the details panel
whenever that option has a non-empty value: such an option is the option of an element
of `L`, and the panel then holds the specifications markup with that element's three
values.  For an empty `modelId` the trim widget is reset to the placeholder and no lookup
is issued. -/
theorem trims_success (modelId : String) (L : List TrimItem) (s : Form)
    (h : modelId ≠ "") :
    (trimsSettled (trimsUrl (currentLang s) modelId) (.fulfilled L)
        (modelChange modelId s)).trimOptions
      = { value := "", text := "Select Trim", dataset := [] } ::
          L.map (fun t => { value := t.id.toDOMString, text := t.display,
                            dataset := [("year", t.year), ("horsepower", t.horsepower),
                                        ("fuelConsumption", t.fuel_consumption)] })
    ∧ (trimsSettled (trimsUrl (currentLang s) modelId) (.fulfilled L)
        (modelChange modelId s)).trimChangeEvents = s.trimChangeEvents + 1
    ∧ (trimsSettled (trimsUrl (currentLang s) modelId) (.fulfilled L)
        (modelChange modelId s)).trimDetails = s.trimDetails
    ∧ (∀ (i : Int) (o : SelectOption) (d : String),
        optionAt (trimsSettled (trimsUrl (currentLang s) modelId) (.fulfilled L)
        (modelChange modelId s)).trimOptions i = some o →
        o.value ≠ "" → s.trimDetails = some d →
        ∃ t, t ∈ L ∧ o.value = t.id.toDOMString ∧ o.text = t.display ∧
          (trimChange i (trimsSettled (trimsUrl (currentLang s) modelId) (.fulfilled L)
        (modelChange modelId s))).trimDetails
            = some ("\n                    <div class=\"glass-card-light p-3 mt-3\">\n                        <h6>Specifications:</h6>\n                        <ul class=\"mb-0\">\n                            <li>Year: "
                ++ t.year ++ "</li>\n                            <li>Horsepower: "
                ++ t.horsepower ++ " HP</li>\n                            <li>Fuel Consumption: "
                ++ t.fuel_consumption ++ " L/100km</li>\n                        </ul>\n                    </div>\n                "))
    ∧ (∀ (k : Nat) (t : TrimItem) (d : String),
        L[k]? = some t → t.id.toDOMString ≠ "" → s.trimDetails = some d →
        (trimChange (k + 1) (trimsSettled (trimsUrl (currentLang s) modelId) (.fulfilled L)
        (modelChange modelId s))).trimDetails
          = some ("\n                    <div class=\"glass-card-light p-3 mt-3\">\n                        <h6>Specifications:</h6>\n                        <ul class=\"mb-0\">\n                            <li>Year: "
              ++ t.year ++ "</li>\n                            <li>Horsepower: "
              ++ t.horsepower ++ " HP</li>\n                            <li>Fuel Consumption: "
              ++ t.fuel_consumption ++ " L/100km</li>\n                        </ul>\n                    </div>\n                "))
    ∧ ((modelChange "" s).trimOptions = [{ value := "", text := "Select Trim", dataset := [] }]
        ∧ (modelChange "" s).fetchLog = s.fetchLog
        ∧ (modelChange "" s).pendingTrims = s.pendingTrims) := by
  have e := trimsSettled_after_modelChange modelId L s h
  have hopts : (trimsSettled (trimsUrl (currentLang s) modelId) (.fulfilled L)
        (modelChange modelId s)).trimOptions
      = { value := "", text := "Select Trim", dataset := [] } ::
          L.map (fun t => { value := t.id.toDOMString, text := t.display,
                            dataset := [("year", t.year), ("horsepower", t.horsepower),
                                        ("fuelConsumption", t.fuel_consumption)] }) := by
    rw [e, trimsLoaded_eq]
    rfl
  have hdet : (trimsSettled (trimsUrl (currentLang s) modelId) (.fulfilled L)
        (modelChange modelId s)).trimDetails = s.trimDetails := by
    rw [e, trimsLoaded_eq]
    unfold modelChange
    dsimp only
    rw [if_neg h]
    rfl
  have byIndex : ∀ (k : Nat) (t : TrimItem) (d : String),
      L[k]? = some t → t.id.toDOMString ≠ "" → s.trimDetails = some d →
      (trimChange (k + 1) (trimsSettled (trimsUrl (currentLang s) modelId) (.fulfilled L)
        (modelChange modelId s))).trimDetails
        = some ("\n                    <div class=\"glass-card-light p-3 mt-3\">\n                        <h6>Specifications:</h6>\n                        <ul class=\"mb-0\">\n                            <li>Year: "
            ++ t.year ++ "</li>\n                            <li>Horsepower: "
            ++ t.horsepower ++ " HP</li>\n                            <li>Fuel Consumption: "
            ++ t.fuel_consumption ++ " L/100km</li>\n                        </ul>\n                    </div>\n                ") := by
    intro k t d hk hv hd
    have hneg : ¬ ((k : Int) + 1 < 0) := by omega
    have hnat : ((k : Int) + 1).toNat = k + 1 := by omega
    have ho : optionAt (trimsSettled (trimsUrl (currentLang s) modelId) (.fulfilled L)
        (modelChange modelId s)).trimOptions ((k : Int) + 1)
        = some { value := t.id.toDOMString, text := t.display,
                 dataset := [("year", t.year), ("horsepower", t.horsepower),
                             ("fuelConsumption", t.fuel_consumption)] } := by
      rw [hopts]
      unfold optionAt
      rw [if_neg hneg, hnat, List.getElem?_cons_succ, List.getElem?_map, hk]
      rfl
    rw [trimChange_renders _ _ _ d ho hv (hdet.trans hd)]
    rw [(datasetGet_loaded t).1, (datasetGet_loaded t).2.1, (datasetGet_loaded t).2.2,
      specifications_eq]
  refine ⟨hopts, ?_, hdet, ?_, byIndex, ?_⟩
  · rw [e, trimsLoaded_eq]
    unfold modelChange
    dsimp only
    rw [if_neg h]
    rfl
  · intro i o d ho hv hd
    rw [hopts] at ho
    obtain ⟨k, t, hi, hk, ho2⟩ := optionAt_loaded L i o ho hv
    have hval : o.value = t.id.toDOMString := by rw [ho2]
    have htext : o.text = t.display := by rw [ho2]
    refine ⟨t, List.getElem?_mem hk, hval, htext, ?_⟩
    rw [hi]
    exact byIndex k t d hk (hval ▸ hv) hd
  · unfold modelChange
    dsimp only
    rw [if_pos rfl]
    exact ⟨rfl, rfl, rfl⟩

set_option maxRecDepth 100000 in
/-- C11, on the model id `"5"` and a response of one trim: the options, the single
`change` event, and the text of the panel once the user selects the loaded trim. -/
theorem trims_success_witness :
    (trimsSettled "/en/ajax/load-trims/?model_id=5"
        (.fulfilled [{ id := .num 9, display := "2024 - 1.6L Highline (Automatic)",
                       year := "2024", horsepower := "110", fuel_consumption := "6.5" }])
        (modelChange "5" freshForm)).trimOptions
      = [{ value := "", text := "Select Trim", dataset := [] },
         { value := "9", text := "2024 - 1.6L Highline (Automatic)",
           dataset := [("year", "2024"), ("horsepower", "110"), ("fuelConsumption", "6.5")] }]
    ∧ (trimsSettled "/en/ajax/load-trims/?model_id=5"
        (.fulfilled [{ id := .num 9, display := "2024 - 1.6L Highline (Automatic)",
                       year := "2024", horsepower := "110", fuel_consumption := "6.5" }])
        (modelChange "5" freshForm)).trimChangeEvents = 1
    ∧ (trimChange 1 (trimsSettled "/en/ajax/load-trims/?model_id=5"
        (.fulfilled [{ id := .num 9, display := "2024 - 1.6L Highline (Automatic)",
                       year := "2024", horsepower := "110", fuel_consumption := "6.5" }])
        (modelChange "5" freshForm))).trimDetails
      = some "\n                    <div class=\"glass-card-light p-3 mt-3\">\n                        <h6>Specifications:</h6>\n                        <ul class=\"mb-0\">\n                            <li>Year: 2024</li>\n                            <li>Horsepower: 110 HP</li>\n                            <li>Fuel Consumption: 6.5 L/100km</li>\n                        </ul>\n                    </div>\n                " :=
  ⟨(trims_success "5"
      [{ id := .num 9, display := "2024 - 1.6L Highline (Automatic)",
         year := "2024", horsepower := "110", fuel_consumption := "6.5" }]
      freshForm (by decide)).1,
    (trims_success "5"
      [{ id := .num 9, display := "2024 - 1.6L Highline (Automatic)",
         year := "2024", horsepower := "110", fuel_consumption := "6.5" }]
      freshForm (by decide)).2.1,
    ((trims_success "5"
      [{ id := .num 9, display := "2024 - 1.6L Highline (Automatic)",
         year := "2024", horsepower := "110", fuel_consumption := "6.5" }]
      freshForm (by decide)).2.2.2.2.1 0
      { id := .num 9, display := "2024 - 1.6L Highline (Automatic)",
        year := "2024", horsepower := "110", fuel_consumption := "6.5" }
      "" rfl (by decide) rfl).trans (by decide)⟩

end Dropdowns

namespace Animations

/-! ## The phone-reveal action -/

theorem getElem?_append_length {α : Type} (l : List α) (a : α) :
    (l ++ [a])[l.length]? = some a := by
  simp

/-- The control after `revealPhone` is called, `a` milliseconds pass and the lookup the
call issued is rejected. -/
theorem run_failure (listingId error : String) (a : Nat) (s : Control) :
    run [.called listingId, .elapsed a, .lookupSettled s.pending.length (.rejected error)] s
      = { lang := s.lang, now := s.now + a,
          button := { innerHTML := "Error loading phone", disabled := false,
                      classList := s.button.classList },
          fetchLog := s.fetchLog ++ [phoneUrl s.lang listingId],
          pending := List.eraseIdx
            (s.pending ++ [({ url := phoneUrl s.lang listingId,
                              originalContent := s.button.innerHTML } : Lookup)])
            s.pending.length,
          timers := s.timers ++ [{ due := s.now + a + 3000,
                                   originalContent := s.button.innerHTML }],
          tweens := s.tweens,
          console := s.console ++ ["Error revealing phone: " ++ error] } := by
  simp only [run, List.foldl_cons, List.foldl_nil, step, revealPhone]
  rw [getElem?_append_length]
  rfl

/-- C12. The failure path of `revealPhone`: the call disables the button and shows the
loading content; when the lookup fails the button shows "Error loading phone", is enabled
again, and a timer of 3000 ms is set; the timer cannot restore the content before 3000 ms
have passed, and once they have, its firing restores exactly the content the button had
at call time, the button being enabled. -/
theorem revealPhone_failure (listingId error : String) (a d : Nat) (s : Control)
    (hd : 3000 ≤ d) :
    ((revealPhone listingId s).button.disabled = true
      ∧ (revealPhone listingId s).button.innerHTML
          = "<span class=\"loading\"></span> Loading...")
    ∧ ((run [.called listingId, .elapsed a,
            .lookupSettled s.pending.length (.rejected error)] s).button.innerHTML
          = "Error loading phone"
      ∧ (run [.called listingId, .elapsed a,
            .lookupSettled s.pending.length (.rejected error)] s).button.disabled = false
      ∧ (run [.called listingId, .elapsed a,
            .lookupSettled s.pending.length (.rejected error)] s).timers
          = s.timers ++ [{ due := s.now + a + 3000, originalContent := s.button.innerHTML }])
    ∧ (∀ e, e < 3000 →
        (run [.called listingId, .elapsed a,
              .lookupSettled s.pending.length (.rejected error),
              .elapsed e, .timerFired s.timers.length] s).button.innerHTML
          = "Error loading phone")
    ∧ ((run [.called listingId, .elapsed a,
              .lookupSettled s.pending.length (.rejected error),
              .elapsed d, .timerFired s.timers.length] s).button.innerHTML
          = s.button.innerHTML
      ∧ (run [.called listingId, .elapsed a,
              .lookupSettled s.pending.length (.rejected error),
              .elapsed d, .timerFired s.timers.length] s).button.disabled = false) := by
  have hrun : ∀ e : Nat,
      run [.called listingId, .elapsed a, .lookupSettled s.pending.length (.rejected error),
            .elapsed e, .timerFired s.timers.length] s
        = step (step (run [.called listingId, .elapsed a,
            .lookupSettled s.pending.length (.rejected error)] s) (.elapsed e))
            (.timerFired s.timers.length) := fun _ => rfl
  refine ⟨⟨rfl, rfl⟩, ?_, ?_, ?_⟩
  · rw [run_failure]
    exact ⟨rfl, rfl, rfl⟩
  · intro e he
    have hlate : ¬ (s.now + a + 3000 ≤ s.now + a + e) := by omega
    rw [hrun, run_failure]
    simp only [step]
    rw [getElem?_append_length]
    dsimp only
    rw [if_neg hlate]
  · have hdue : s.now + a + 3000 ≤ s.now + a + d := by omega
    rw [hrun, run_failure]
    simp only [step]
    rw [getElem?_append_length]
    dsimp only
    rw [if_pos hdue]
    exact ⟨rfl, rfl⟩

/-- C12, on the masked button of a listing page: the lookup fails 40 ms after the call
and the timer fires 3000 ms later. -/
theorem revealPhone_failure_witness :
    (run [.called "12", .elapsed 40, .lookupSettled 0 (.rejected "TypeError: Failed to fetch"),
          .elapsed 3000, .timerFired 0] freshControl).button.innerHTML
        = "<i class=\"bi bi-telephone\"></i> Show phone"
      ∧ (run [.called "12", .elapsed 40,
          .lookupSettled 0 (.rejected "TypeError: Failed to fetch"),
          .elapsed 3000, .timerFired 0] freshControl).button.disabled = false :=
  (revealPhone_failure "12" "TypeError: Failed to fetch" 40 3000 freshControl
    (by decide)).2.2.2

end Animations

namespace Hero3D

/-! ## The map outline and the city markers -/

/-- C13 fails on the code: the marker of Hurghada, a city of the Red Sea coast, is placed
at `(1203/250, 81/125)`, outside the outline.  At that height the outline's eastern edge
(from "Gulf entry" to "Halayeb Outer") passes through `x = 231/50`, west of the marker;
the half-line going east from the marker meets no edge, and the marker is on no edge.
Every other city of `getGISCityData` is inside the closed outline. -/
theorem hurghada_marker_outside :
    getGISCityData.filter (fun c => !insideClosed drawStrictGISEgypt (markerPosition c))
        = [{ name := "Hurghada", ar := "الغردقة", id := "HURGHADA", lat := 27.25,
             lon := 33.81, special := false }]
      ∧ project 27.25 33.81 = (1203/250, 81/125)
      ∧ onSegment (231/50, 81/125) (project 27.50 33.50, project 22.00 36.80) = true
      ∧ (edges drawStrictGISEgypt).countP (crossesEastRay (project 27.25 33.81)) = 0
      ∧ (edges drawStrictGISEgypt).any (onSegment (project 27.25 33.81)) = false
      ∧ insideClosed drawStrictGISEgypt (project 27.25 33.81) = false := by
  decide!

end Hero3D

namespace Compare

/-! ## The compare checkboxes -/

theorem checkboxes_updateCompareUI (s : Page) :
    (updateCompareUI s).checkboxes
      = s.checkboxes.map
          (fun cb => { cb with checked := (storedIds s).contains cb.dataId }) := by
  unfold updateCompareUI throwTypeError
  dsimp only
  split <;> split <;> (try split) <;> rfl

/-- After `updateCompareUI` every checkbox mirrors storage. -/
theorem checkboxesMirror_updateCompareUI (s : Page) :
    checkboxesMirror (updateCompareUI s) = true := by
  unfold checkboxesMirror
  rw [storedIds_updateCompareUI, checkboxes_updateCompareUI]
  simp [List.all_map]

/-- A change event on a compare checkbox whose toggle is accepted (the id is persisted, or
fewer than 3 ids are) ends with `updateCompareUI`, so the checkboxes mirror storage
afterwards. -/
theorem bodyChange_accepted_mirrors (i : Nat) (cb : Checkbox) (s : Page)
    (hcb : s.checkboxes[i]? = some cb)
    (hacc : cb.dataId ∈ storedIds s ∨ (storedIds s).length < 3) :
    checkboxesMirror (bodyChange (some i) s) = true := by
  have hb : bodyChange (some i) s = toggleCompare cb.dataId s := by
    unfold bodyChange
    rw [show (some i).bind (fun i => s.checkboxes[i]?) = some cb from hcb]
  rw [hb]
  unfold toggleCompare
  dsimp only
  by_cases hX : cb.dataId ∈ storedIds s
  · have hc : (storedIds s).contains cb.dataId = true := by simpa using hX
    rw [if_pos hc]
    exact checkboxesMirror_updateCompareUI _
  · have hlt : (storedIds s).length < 3 := hacc.resolve_left hX
    have hc : ¬ (storedIds s).contains cb.dataId = true := by simpa using hX
    have hcap : ¬ (storedIds s).length ≥ MAX_CARS := by
      simp only [MAX_CARS]; omega
    rw [if_neg hc, if_neg hcap]
    exact checkboxesMirror_updateCompareUI _

/-- A flip by the user whose toggle is accepted leaves the checkboxes mirroring storage. -/
theorem userFlip_accepted_mirrors (i : Nat) (cb : Checkbox) (s : Page)
    (hcb : s.checkboxes[i]? = some cb)
    (hacc : cb.dataId ∈ storedIds s ∨ (storedIds s).length < 3) :
    checkboxesMirror (userFlip i s) = true := by
  have hget : (s.checkboxes.modify (fun c => { c with checked := !c.checked }) i)[i]?
      = some { cb with checked := !cb.checked } := by
    rw [List.getElem?_modify_eq, hcb]
    rfl
  unfold userFlip
  exact bodyChange_accepted_mirrors i { cb with checked := !cb.checked } _ hget hacc

/-- C14 fails on the code at capacity: with `["A","B","C"]` persisted and the checkboxes
of A, B, C, D mirroring it, the user ticks the checkbox of D; the toggle is rejected with
the capacity alert, storage keeps `["A","B","C"]`, and the checkbox of D stays checked
although `"D"` is not persisted. -/
theorem userFlip_at_capacity_not_mirrored :
    checkboxesMirror (listingPage ["A", "B", "C"] ["A", "B", "C", "D"]) = true
      ∧ storedIds (userFlip 3 (listingPage ["A", "B", "C"] ["A", "B", "C", "D"]))
          = ["A", "B", "C"]
      ∧ (userFlip 3 (listingPage ["A", "B", "C"] ["A", "B", "C", "D"])).alerts
          = ["You can only compare up to 3 cars."]
      ∧ (userFlip 3 (listingPage ["A", "B", "C"] ["A", "B", "C", "D"])).checkboxes
          = [{ dataId := "A", checked := true }, { dataId := "B", checked := true },
             { dataId := "C", checked := true }, { dataId := "D", checked := true }]
      ∧ checkboxesMirror (userFlip 3 (listingPage ["A", "B", "C"] ["A", "B", "C", "D"]))
          = false := by
  decide

end Compare
